import Mathlib

/-!
Verification of the case-form client workflow (src/CaseFormLogic.js) and the
case-admission plugin (src/Scenario-2/Plugin/PluginCSCode.cs) against the
repository's specification.

The JavaScript workflow is embedded as pure functions over an explicit form
state, threading an event trace: every observable operation (remote fetch,
control visibility change, requirement-level change, lookup value write,
notification upsert/clear, invocation of the summary-panel synchronizer
`setFieldVisibility`) is recorded as an event in source order.  Remote calls
(`Xrm.WebApi.retrieveRecord`) are oracle functions in the environment so a
run can be analysed for any outcome of the fetches.  `setFieldVisibility`
only starts an asynchronous poll of the quick-view control; within one
workflow run it is modelled as the single event `Ev.syncPanel`, and its
deferred callback (the read pass over the quick view) together with the
polling loop `waitForQuickViewLoad` are modelled separately below.
-/

namespace CaseForm

/-- A Dynamics lookup value as the form returns it: `id` (possibly wrapped in
curly brackets), display `name` and `entityType` ("account" or "contact"). -/
structure Lookup where
  id : String
  name : String
  entityType : String
deriving DecidableEq

/-- The projection of an account record the workflow fetches:
`_primarycontactid_value` (null modelled as `none`). -/
structure AccountRecord where
  primaryContactId : Option String
deriving DecidableEq

/-- The projection of a contact record the workflow fetches:
`fullname`, `emailaddress1`, `mobilephone`. -/
structure ContactRecord where
  fullname : String
  email : Option String
  phone : Option String
deriving DecidableEq

/-- A form notification banner: stable identifier, message and level. -/
structure Notif where
  id : String
  message : String
  level : String
deriving DecidableEq

/-- Observable events of one workflow run, in source order. -/
inductive Ev where
  | fetch (entityName recId : String)
  | setVisible (field : String) (b : Bool)
  | setRequired (field : String) (lvl : String)
  | setValue (field : String) (v : Option Lookup)
  | notifySet (nid : String)
  | notifyClear (nid : String)
  | syncPanel
deriving DecidableEq

/-- The form state the workflow reads and mutates.  The two `Present` flags
model whether `getControl("primarycontactid")` / `getAttribute("primarycontactid")`
return a handle (the source tolerates their absence with null checks, except
in `retrieveContactDetails`, where a missing attribute makes `setValue` throw). -/
structure FormState where
  contactControlPresent : Bool
  contactVisible : Bool
  contactAttrPresent : Bool
  contactRequirement : String
  contactValue : Option Lookup
  notifs : List Notif
deriving DecidableEq

/-- The ambient environment of a run: the customer lookup value (the first
element of `getAttribute("customerid").getValue()`, `none` when the attribute
is missing or its value null) and the remote record service's responses. -/
structure Env where
  customer : Option Lookup
  retrieveAccount : String → Except Unit AccountRecord
  retrieveContact : String → Except Unit ContactRecord

/-- Upserts a banner keyed by its identifier (last write wins per id). -/
def upsertNotif (ns : List Notif) (msg lvl nid : String) : List Notif :=
  Notif.mk nid msg lvl :: ns.filter (fun n => n.id != nid)

/-- Removes every banner keyed by the identifier; a no-op when absent. -/
def clearNotifById (ns : List Notif) (nid : String) : List Notif :=
  ns.filter (fun n => n.id != nid)

/-- Whether a banner with the given identifier is active. -/
def notifListActive (ns : List Notif) (nid : String) : Bool :=
  ns.any (fun n => n.id == nid)

/-- `formContext.ui.setFormNotification(msg, lvl, nid)`. -/
def setFormNotification (s : FormState) (msg lvl nid : String) : FormState :=
  { s with notifs := upsertNotif s.notifs msg lvl nid }

/-- Whether a banner with the given identifier is active on the form. -/
def notifActive (s : FormState) (nid : String) : Bool :=
  notifListActive s.notifs nid

/-- `customerData.id.replace(/[{}]/g, "")`: drop every curly-bracket char. -/
def stripBraces (str : String) : String :=
  String.mk (str.data.filter (fun c => c != Char.ofNat 123 && c != Char.ofNat 125))

/-- JavaScript truthiness of a nullable string (`null` and `""` are falsy). -/
def jsTruthy : Option String → Bool
  | none => false
  | some str => str != ""

/-- `ensureContactFieldVisibility`: show the contact control when present. -/
def ensureContactFieldVisibility (s : FormState) : FormState × List Ev :=
  if s.contactControlPresent then
    ({ s with contactVisible := true }, [Ev.setVisible "primarycontactid" true])
  else (s, [])

/-- `setContactFieldRequirement`: set the requirement level when the
attribute is present. -/
def setContactFieldRequirement (s : FormState) (lvl : String) : FormState × List Ev :=
  if s.contactAttrPresent then
    ({ s with contactRequirement := lvl }, [Ev.setRequired "primarycontactid" lvl])
  else (s, [])

/-- `setFieldVisibility`: synchronously it only locates the quick view and
starts the load poll; the read pass runs later in the poll's callback.  For
the workflow run it is the single event `Ev.syncPanel` (the synchronizer
invocation); the deferred read pass is modelled by `quickViewCallback`. -/
def setFieldVisibility (s : FormState) : FormState × List Ev :=
  (s, [Ev.syncPanel])

/-- `handleNoPrimaryContact`: warn banner, then synchronizer. -/
def handleNoPrimaryContact (s : FormState) : FormState × List Ev :=
  let s1 := setFormNotification s
    "No primary contact is associated with this account." "WARNING" "NoPrimaryContact"
  let p := setFieldVisibility s1
  (p.1, Ev.notifySet "NoPrimaryContact" :: p.2)

/-- `handleAccountError`: error banner, then synchronizer. -/
def handleAccountError (s : FormState) : FormState × List Ev :=
  let s1 := setFormNotification s
    "Unable to retrieve account details. Please try again later." "ERROR" "AccountError"
  let p := setFieldVisibility s1
  (p.1, Ev.notifySet "AccountError" :: p.2)

/-- `handleContactCustomer`: hide the contact control (when present) and make
the contact attribute optional. -/
def handleContactCustomer (s : FormState) : FormState × List Ev :=
  let p1 :=
    if s.contactControlPresent then
      ({ s with contactVisible := false }, [Ev.setVisible "primarycontactid" false])
    else (s, ([] : List Ev))
  let p2 := setContactFieldRequirement p1.1 "none"
  (p2.1, p1.2 ++ p2.2)

/-- `resetContactField`: clear the contact lookup when the attribute exists. -/
def resetContactField (s : FormState) : FormState × List Ev :=
  if s.contactAttrPresent then
    ({ s with contactValue := none }, [Ev.setValue "primarycontactid" none])
  else (s, [])

/-- `handleNoCustomerSelected`: synchronizer first, then clear the contact. -/
def handleNoCustomerSelected (s : FormState) : FormState × List Ev :=
  let p1 := setFieldVisibility s
  let p2 := resetContactField p1.1
  (p2.1, p1.2 ++ p2.2)

/-- `retrieveContactDetails`: fetch the contact; on success run the
synchronizer and then write the contact lookup (a missing attribute makes the
unguarded `setValue` throw into this function's own catch); on failure set
the contact-error banner and run the synchronizer. -/
def retrieveContactDetails (env : Env) (s : FormState) (contactId : String) :
    FormState × List Ev :=
  match env.retrieveContact contactId with
  | Except.ok c =>
    let p1 := setFieldVisibility s
    if p1.1.contactAttrPresent then
      ({ p1.1 with contactValue := some (Lookup.mk contactId c.fullname "contact") },
       Ev.fetch "contact" contactId :: p1.2 ++
         [Ev.setValue "primarycontactid" (some (Lookup.mk contactId c.fullname "contact"))])
    else
      let s2 := setFormNotification p1.1
        "Unable to retrieve contact details. Please try again later." "ERROR" "ContactError"
      let p3 := setFieldVisibility s2
      (p3.1, Ev.fetch "contact" contactId :: p1.2 ++ (Ev.notifySet "ContactError" :: p3.2))
  | Except.error _ =>
    let s1 := setFormNotification s
      "Unable to retrieve contact details. Please try again later." "ERROR" "ContactError"
    let p2 := setFieldVisibility s1
    (p2.1, Ev.fetch "contact" contactId :: Ev.notifySet "ContactError" :: p2.2)

/-- `handleAccountCustomer`: fetch the account first; only on success show
the contact control and make it required, then branch on the truthiness of
`_primarycontactid_value`; the catch handles a failed account fetch. -/
def handleAccountCustomer (env : Env) (s : FormState) (accountId : String) :
    FormState × List Ev :=
  match env.retrieveAccount accountId with
  | Except.error _ =>
    let p := handleAccountError s
    (p.1, Ev.fetch "account" accountId :: p.2)
  | Except.ok acc =>
    let p1 := ensureContactFieldVisibility s
    let p2 := setContactFieldRequirement p1.1 "required"
    if jsTruthy acc.primaryContactId then
      let p3 := retrieveContactDetails env p2.1 (acc.primaryContactId.getD "")
      (p3.1, Ev.fetch "account" accountId :: (p1.2 ++ p2.2 ++ p3.2))
    else
      let p3 := handleNoPrimaryContact p2.1
      (p3.1, Ev.fetch "account" accountId :: (p1.2 ++ p2.2 ++ p3.2))

/-- `handleCustomerType`: dispatch on the entity type; anything other than
"account" or "contact" falls through with no effect. -/
def handleCustomerType (env : Env) (s : FormState) (customerType customerId : String) :
    FormState × List Ev :=
  if customerType == "account" then handleAccountCustomer env s customerId
  else if customerType == "contact" then handleContactCustomer s
  else (s, [])

/-- `handleCustomerField`: read the customer lookup; when present, normalize
the id and dispatch on the type, otherwise take the no-customer path. -/
def handleCustomerField (env : Env) (s : FormState) : FormState × List Ev :=
  match env.customer with
  | some customerData =>
    handleCustomerType env s customerData.entityType (stripBraces customerData.id)
  | none => handleNoCustomerSelected s

/-- `onFormLoad`: the entry point; in this model no step throws past its own
handler, so the top-level catch is unreachable and the run is
`handleCustomerField`. -/
def onFormLoad (env : Env) (s : FormState) : FormState × List Ev :=
  handleCustomerField env s

/-- Whether an event is a remote-service call. -/
def isFetch : Ev → Bool
  | Ev.fetch _ _ => true
  | _ => false

/-- Whether an event writes a lookup field's value. -/
def isSetValue : Ev → Bool
  | Ev.setValue _ _ => true
  | _ => false

/-- The remote calls of a trace, in order. -/
def fetches (tr : List Ev) : List Ev :=
  tr.filter isFetch

/-! The summary-panel synchronizer's asynchronous part: the poll
(`waitForQuickViewLoad`) and the deferred read pass over the quick view
(`quickViewCallback`), modelling `setFieldVisibility`'s callback body together
with `getFieldValue`, `updateFieldVisibility` and `updateFormNotification`. -/

/-- Observable events of the quick-view load poll: an idle interval tick
(`isLoaded()` returned false), the `clearInterval` call, and the invocation
of the read-pass callback. -/
inductive PollEv where
  | tick
  | cancelTimer
  | readPass
deriving DecidableEq

/-- `waitForQuickViewLoad`'s interval, as the list of poll events produced by
ticks `t, t+1, ...`: each tick checks `isLoaded`; on the first true tick the
timer is cleared and the callback runs, ending the poll.  `fuel` bounds how
many ticks are observed (the real interval is unbounded; every result below
is independent of the fuel once it exceeds the flip tick). -/
def waitForQuickViewLoad (isLoaded : Nat → Bool) : Nat → Nat → List PollEv
  | _, 0 => []
  | t, fuel + 1 =>
    if isLoaded t then [PollEv.cancelTimer, PollEv.readPass]
    else PollEv.tick :: waitForQuickViewLoad isLoaded (t + 1) fuel

/-- One scalar field inside the quick-view control: whether
`getControl(fieldName)` returns a handle, whether the attribute behind it is
readable, the raw attribute value (null as `none`), and the control's
visibility. -/
structure QVField where
  controlPresent : Bool
  attrReadable : Bool
  rawValue : Option String
  visible : Bool
deriving DecidableEq

/-- The quick-view control: its email and phone fields and its own
visibility. -/
structure QuickView where
  email : QVField
  phone : QVField
  visible : Bool
deriving DecidableEq

/-- JavaScript's `String.prototype.trim`: drop leading and trailing
whitespace characters. -/
def jsTrim (s : String) : String :=
  String.mk (((s.data.dropWhile Char.isWhitespace).reverse.dropWhile Char.isWhitespace).reverse)

/-- `getFieldValue`: `getControl(f).getAttribute().getValue()?.trim() || null`
inside a try/catch — an inaccessible field, a null value and a
whitespace-only value all yield `none`. -/
def getFieldValue (f : QVField) : Option String :=
  if f.controlPresent && f.attrReadable then
    match f.rawValue with
    | none => none
    | some str => if jsTrim str == "" then none else some (jsTrim str)
  else none

/-- `updateFieldVisibility`: `getControl(f).setVisible(!!value)` inside a
try/catch — a missing control degrades to a no-op. -/
def updateFieldVisibility (f : QVField) (b : Bool) : QVField :=
  if f.controlPresent then { f with visible := b } else f

/-- `updateFormNotification`: set the no-contact-details banner when the
quick view is to be hidden, otherwise clear it. -/
def updateFormNotification (ns : List Notif) (shouldHide : Bool) : List Notif :=
  if shouldHide then
    upsertNotif ns "No contact details are available to display." "WARNING" "NoContactDetails"
  else clearNotifById ns "NoContactDetails"

/-- The read pass `setFieldVisibility` schedules: read both fields, set each
field's visibility to its value's presence, hide or show the quick view, and
update the no-contact-details banner. -/
def quickViewCallback (qv : QuickView) (ns : List Notif) : QuickView × List Notif :=
  let email := getFieldValue qv.email
  let phone := getFieldValue qv.phone
  let qv1 : QuickView :=
    { qv with
        email := updateFieldVisibility qv.email email.isSome
        phone := updateFieldVisibility qv.phone phone.isSome }
  let shouldHide := email.isNone && phone.isNone
  let qv2 : QuickView := { qv1 with visible := !shouldHide }
  (qv2, updateFormNotification ns shouldHide)

end CaseForm

namespace CasePlugin

/-! The server-side case-admission plugin (PluginCSCode.cs), embedded as a
pure function from the execution context's target entity and the organization
service's query answers to an `Except` of the thrown message. -/

/-- An attribute value of the target entity: an `EntityReference` (with its
id) or anything else. -/
inductive AttrVal where
  | ref (rid : String)
  | other
deriving DecidableEq

/-- The target entity: its logical name and attribute map. -/
structure Entity where
  logicalName : String
  attrs : List (String × AttrVal)
deriving DecidableEq

/-- Attribute lookup on the target entity. -/
def getAttr (e : Entity) (k : String) : Option AttrVal :=
  (e.attrs.find? (fun p => p.1 == k)).map (fun p => p.2)

/-- The customer id when the "customerid" attribute exists and is an
`EntityReference`; `ValidateCustomerId` throws exactly when this is `none`. -/
def validCustomerId (e : Entity) : Option String :=
  match getAttr e "customerid" with
  | some (AttrVal.ref rid) => some rid
  | _ => none

/-- `CreateActiveCasesQuery`: a query for "incident" records with the given
customer id and statecode 0 (active). -/
structure ActiveCasesQuery where
  entityName : String
  customerId : String
  stateCode : Nat
deriving DecidableEq

/-- Builds the active-cases query for a customer. -/
def createActiveCasesQuery (cid : String) : ActiveCasesQuery :=
  ActiveCasesQuery.mk "incident" cid 0

/-- The message of the duplicate-active-case domain error. -/
def activeCaseMsg : String :=
  "A case for this customer is already active. Unable to create Case."

/-- The message of the missing-customer domain error. -/
def customerRequiredMsg : String :=
  "The Customer ID is required to create a case."

/-- `HasActiveCases`: run the query and test whether any row came back
(`rowCount` is the organization service's answer, the number of entities
`RetrieveMultiple` returns). -/
def hasActiveCases (rowCount : ActiveCasesQuery → Nat) (cid : String) : Bool :=
  decide (0 < rowCount (createActiveCasesQuery cid))

/-- `ExecutePlugin`: return silently on an invalid context (no target or not
an "incident"); otherwise validate the customer id (throwing the required
error) and throw the active-case error when the query finds a row. -/
def executePlugin (rowCount : ActiveCasesQuery → Nat) (target : Option Entity) :
    Except String Unit :=
  match target with
  | none => Except.ok ()
  | some e =>
    if e.logicalName == "incident" then
      match validCustomerId e with
      | none => Except.error customerRequiredMsg
      | some cid =>
        if hasActiveCases rowCount cid then Except.error activeCaseMsg
        else Except.ok ()
    else Except.ok ()

end CasePlugin

open CaseForm CasePlugin

/-- Setting a banner makes it active. -/
lemma notifListActive_upsert (ns : List Notif) (msg lvl nid : String) :
    notifListActive (upsertNotif ns msg lvl nid) nid = true := by
  simp [notifListActive, upsertNotif]

/-- Clearing a banner id leaves no banner with that id active. -/
lemma notifListActive_clear (ns : List Notif) (nid : String) :
    notifListActive (clearNotifById ns nid) nid = false := by
  rw [notifListActive, clearNotifById, List.any_eq_false]
  intro x hx
  have hne := (List.mem_filter.mp hx).2
  simp only [bne_iff_ne, ne_eq] at hne
  simp [hne]

/-- A form state with the primary-contact control and attribute present, the
control hidden, the attribute optional, no value and no banner. -/
def sampleState : FormState :=
  FormState.mk true false true "none" none []

/-- A run where the customer is the account A1 and the account fetch fails. -/
def envOrgDown : Env :=
  Env.mk (some (Lookup.mk "A1" "Acme" "account"))
    (fun _ => Except.error ()) (fun _ => Except.error ())

/-- A run where the customer is the account A1 whose primary contact P1
resolves to the contact "Pat Doe". -/
def envOrgLinked : Env :=
  Env.mk (some (Lookup.mk "A1" "Acme" "account"))
    (fun _ => Except.ok (AccountRecord.mk (some "P1")))
    (fun _ => Except.ok (ContactRecord.mk "Pat Doe" (some "e@x.com") none))

/-- A run where the customer is the account A2 with no linked contact. -/
def envOrgNoLink : Env :=
  Env.mk (some (Lookup.mk "A2" "Apex" "account"))
    (fun _ => Except.ok (AccountRecord.mk none))
    (fun _ => Except.error ())

/-- A run where the customer is itself a contact. -/
def envContactCust : Env :=
  Env.mk (some (Lookup.mk "C9" "Pat" "contact"))
    (fun _ => Except.error ()) (fun _ => Except.error ())

/-- A run with no customer selected. -/
def envNoCust : Env :=
  Env.mk none (fun _ => Except.error ()) (fun _ => Except.error ())

/-- A run whose customer lookup has an entity type the workflow does not
dispatch on. -/
def envOtherCust : Env :=
  Env.mk (some (Lookup.mk "T1" "Team One" "team"))
    (fun _ => Except.ok (AccountRecord.mk (some "P1")))
    (fun _ => Except.ok (ContactRecord.mk "Pat Doe" none none))

/-- C4: when the customer reference has variant Person ("contact"), the
Primary Contact control is set invisible, the attribute's requirement level
is set to "none", and the run makes no remote call. -/
theorem contact_customer_hides_field
    (env : Env) (s : FormState) (cid nm : String)
    (hcust : env.customer = some (Lookup.mk cid nm "contact"))
    (hctrl : s.contactControlPresent = true)
    (hattr : s.contactAttrPresent = true) :
    (handleCustomerField env s).1.contactVisible = false ∧
    (handleCustomerField env s).1.contactRequirement = "none" ∧
    fetches (handleCustomerField env s).2 = [] := by
  simp [handleCustomerField, hcust, handleCustomerType, handleContactCustomer,
    setContactFieldRequirement, hctrl, hattr, fetches, isFetch]

/-- C4 witness: the concrete contact-customer run. -/
theorem contact_customer_hides_field_witness :
    (handleCustomerField envContactCust sampleState).1.contactVisible = false ∧
    (handleCustomerField envContactCust sampleState).1.contactRequirement = "none" ∧
    fetches (handleCustomerField envContactCust sampleState).2 = [] :=
  contact_customer_hides_field envContactCust sampleState "C9" "Pat" rfl rfl rfl

/-- C5: when the customer is an organization, the organization fetch
succeeds and its linked-person value is falsy, the run makes exactly the one
organization remote call, sets the no-primary-contact banner, leaves the
Primary Contact control visible and required, and never writes the Primary
Contact value. -/
theorem org_without_linked_person
    (env : Env) (s : FormState) (rawId nm : String) (acc : AccountRecord)
    (hcust : env.customer = some (Lookup.mk rawId nm "account"))
    (hacct : env.retrieveAccount (stripBraces rawId) = Except.ok acc)
    (hlink : jsTruthy acc.primaryContactId = false)
    (hctrl : s.contactControlPresent = true)
    (hattr : s.contactAttrPresent = true) :
    fetches (handleCustomerField env s).2 = [Ev.fetch "account" (stripBraces rawId)] ∧
    notifActive (handleCustomerField env s).1 "NoPrimaryContact" = true ∧
    (handleCustomerField env s).1.contactVisible = true ∧
    (handleCustomerField env s).1.contactRequirement = "required" ∧
    (handleCustomerField env s).1.contactValue = s.contactValue ∧
    (handleCustomerField env s).2.filter isSetValue = [] := by
  simp [handleCustomerField, hcust, handleCustomerType, handleAccountCustomer, hacct,
    hlink, ensureContactFieldVisibility, setContactFieldRequirement, handleNoPrimaryContact,
    setFieldVisibility, setFormNotification, hctrl, hattr, fetches, isFetch, isSetValue,
    notifActive, notifListActive_upsert]

/-- C5 witness: the concrete no-linked-contact account run. -/
theorem org_without_linked_person_witness :
    fetches (handleCustomerField envOrgNoLink sampleState).2 = [Ev.fetch "account" (stripBraces "A2")] ∧
    notifActive (handleCustomerField envOrgNoLink sampleState).1 "NoPrimaryContact" = true ∧
    (handleCustomerField envOrgNoLink sampleState).1.contactVisible = true ∧
    (handleCustomerField envOrgNoLink sampleState).1.contactRequirement = "required" ∧
    (handleCustomerField envOrgNoLink sampleState).1.contactValue = sampleState.contactValue ∧
    (handleCustomerField envOrgNoLink sampleState).2.filter isSetValue = [] :=
  org_without_linked_person envOrgNoLink sampleState "A2" "Apex" (AccountRecord.mk none)
    rfl rfl rfl rfl rfl

/-- C6: when no customer is selected, the Primary Contact value is cleared
to null and the summary-panel synchronizer is still invoked in the run. -/
theorem no_customer_clears_contact
    (env : Env) (s : FormState)
    (hcust : env.customer = none)
    (hattr : s.contactAttrPresent = true) :
    (handleCustomerField env s).1.contactValue = none ∧
    Ev.syncPanel ∈ (handleCustomerField env s).2 := by
  simp [handleCustomerField, hcust, handleNoCustomerSelected, setFieldVisibility,
    resetContactField, hattr]

/-- C6 witness: the concrete empty-customer run. -/
theorem no_customer_clears_contact_witness :
    (handleCustomerField envNoCust sampleState).1.contactValue = none ∧
    Ev.syncPanel ∈ (handleCustomerField envNoCust sampleState).2 :=
  no_customer_clears_contact envNoCust sampleState rfl rfl

/-- C10: when the customer lookup is present but its entity type is neither
"account" nor "contact", the run returns the state unchanged and an empty
trace: no remote call, no field mutation, no banner change. -/
theorem unknown_customer_type_no_effect
    (env : Env) (s : FormState) (lk : Lookup)
    (hcust : env.customer = some lk)
    (hA : lk.entityType ≠ "account")
    (hC : lk.entityType ≠ "contact") :
    handleCustomerField env s = (s, []) := by
  simp [handleCustomerField, hcust, handleCustomerType, hA, hC]

/-- C10 witness: the concrete unknown-entity-type run. -/
theorem unknown_customer_type_no_effect_witness :
    handleCustomerField envOtherCust sampleState = (sampleState, []) :=
  unknown_customer_type_no_effect envOtherCust sampleState (Lookup.mk "T1" "Team One" "team")
    rfl (by decide) (by decide)

/-- C3: when the customer is an organization whose fetch succeeds with a
truthy linked-person id and the contact fetch also succeeds, the run makes
exactly two remote calls — the organization lookup then the person lookup —
and ends with the Primary Contact value holding that person's id and fetched
full name with entity type "contact". -/
theorem org_with_linked_person
    (env : Env) (s : FormState) (rawId nm cid : String)
    (acc : AccountRecord) (con : ContactRecord)
    (hcust : env.customer = some (Lookup.mk rawId nm "account"))
    (hacct : env.retrieveAccount (stripBraces rawId) = Except.ok acc)
    (hlink : acc.primaryContactId = some cid)
    (hcid : cid ≠ "")
    (hcon : env.retrieveContact cid = Except.ok con)
    (hattr : s.contactAttrPresent = true) :
    fetches (handleCustomerField env s).2 =
      [Ev.fetch "account" (stripBraces rawId), Ev.fetch "contact" cid] ∧
    (handleCustomerField env s).1.contactValue =
      some (Lookup.mk cid con.fullname "contact") := by
  cases hctrl : s.contactControlPresent <;>
    simp [handleCustomerField, hcust, handleCustomerType, handleAccountCustomer, hacct,
      hlink, jsTruthy, hcid, retrieveContactDetails, hcon, ensureContactFieldVisibility,
      setContactFieldRequirement, setFieldVisibility, hattr, hctrl, fetches, isFetch]

/-- C3 witness: the concrete linked-contact account run. -/
theorem org_with_linked_person_witness :
    fetches (handleCustomerField envOrgLinked sampleState).2 =
      [Ev.fetch "account" (stripBraces "A1"), Ev.fetch "contact" "P1"] ∧
    (handleCustomerField envOrgLinked sampleState).1.contactValue =
      some (Lookup.mk "P1" "Pat Doe" "contact") :=
  org_with_linked_person envOrgLinked sampleState "A1" "Acme" "P1"
    (AccountRecord.mk (some "P1")) (ContactRecord.mk "Pat Doe" (some "e@x.com") none)
    rfl rfl rfl (by decide) rfl rfl

/-- C1 counterexample: in a run where the customer is an organization and
the organization fetch fails, the account-error banner is set and no person
lookup is attempted, yet the Primary Contact control is NOT in the
visible/required state of spec step 4a — the source sets visibility and
requirement only after a successful fetch, so on failure they keep their
prior values (here: hidden and optional). -/
theorem org_failure_state_counterexample :
    notifActive (handleCustomerField envOrgDown sampleState).1 "AccountError" = true ∧
    fetches (handleCustomerField envOrgDown sampleState).2 = [Ev.fetch "account" "A1"] ∧
    ¬((handleCustomerField envOrgDown sampleState).1.contactVisible = true ∧
      (handleCustomerField envOrgDown sampleState).1.contactRequirement = "required") := by
  decide

/-- C1 (amended): when the customer is an organization and the organization
fetch fails, the account-error banner is set, the organization lookup is the
run's only remote call (so no person lookup is attempted), the Primary
Contact control's visibility and requirement level are left exactly as they
were before the run, and the synchronizer invocation ends the trace. -/
theorem org_failure_amended
    (env : Env) (s : FormState) (rawId nm : String)
    (hcust : env.customer = some (Lookup.mk rawId nm "account"))
    (hacct : env.retrieveAccount (stripBraces rawId) = Except.error ()) :
    notifActive (handleCustomerField env s).1 "AccountError" = true ∧
    fetches (handleCustomerField env s).2 = [Ev.fetch "account" (stripBraces rawId)] ∧
    (handleCustomerField env s).1.contactVisible = s.contactVisible ∧
    (handleCustomerField env s).1.contactRequirement = s.contactRequirement ∧
    (handleCustomerField env s).2.getLast? = some Ev.syncPanel := by
  simp [handleCustomerField, hcust, handleCustomerType, handleAccountCustomer, hacct,
    handleAccountError, setFieldVisibility, setFormNotification, notifActive,
    notifListActive_upsert, fetches, isFetch, List.getLast?]

/-- C1 amended witness: the concrete failing-organization run. -/
theorem org_failure_amended_witness :
    notifActive (handleCustomerField envOrgDown sampleState).1 "AccountError" = true ∧
    fetches (handleCustomerField envOrgDown sampleState).2 = [Ev.fetch "account" (stripBraces "A1")] ∧
    (handleCustomerField envOrgDown sampleState).1.contactVisible = sampleState.contactVisible ∧
    (handleCustomerField envOrgDown sampleState).1.contactRequirement = sampleState.contactRequirement ∧
    (handleCustomerField envOrgDown sampleState).2.getLast? = some Ev.syncPanel :=
  org_failure_amended envOrgDown sampleState "A1" "Acme" rfl rfl

/-- C2 counterexample: on the contact-fetch-success branch the synchronizer
is invoked, but the last operation of the run is the write of the Primary
Contact value, not the synchronizer — the source calls `setFieldVisibility`
before `setValue`, so the synchronizer does not run last (nor after the
value is set). -/
theorem sync_not_last_counterexample :
    Ev.syncPanel ∈ (handleCustomerField envOrgLinked sampleState).2 ∧
    (handleCustomerField envOrgLinked sampleState).2.getLast? =
      some (Ev.setValue "primarycontactid" (some (Lookup.mk "P1" "Pat Doe" "contact"))) ∧
    (handleCustomerField envOrgLinked sampleState).2.getLast? ≠ some Ev.syncPanel := by
  decide

/-- C2 (amended): the exact event trace of every terminal branch of a run
with the contact control and attribute present.  The synchronizer invocation
is the last operation on the organization-failure, no-linked-person and
contact-fetch-failure branches; on the no-customer branch it is invoked and
followed only by the clearing of the Primary Contact value, and on the
contact-fetch-success branch it is invoked and followed only by the write of
the Primary Contact value (so it runs before, not after, that write); on the
person branch it is not invoked at all. -/
theorem sync_position_amended
    (env : Env) (s : FormState)
    (hctrl : s.contactControlPresent = true)
    (hattr : s.contactAttrPresent = true) :
    (env.customer = none →
      (handleCustomerField env s).2 =
        [Ev.syncPanel, Ev.setValue "primarycontactid" none]) ∧
    (∀ lk : Lookup, env.customer = some lk → lk.entityType = "account" →
      env.retrieveAccount (stripBraces lk.id) = Except.error () →
      (handleCustomerField env s).2 =
        [Ev.fetch "account" (stripBraces lk.id),
         Ev.notifySet "AccountError", Ev.syncPanel]) ∧
    (∀ (lk : Lookup) (acc : AccountRecord),
      env.customer = some lk → lk.entityType = "account" →
      env.retrieveAccount (stripBraces lk.id) = Except.ok acc →
      jsTruthy acc.primaryContactId = false →
      (handleCustomerField env s).2 =
        [Ev.fetch "account" (stripBraces lk.id),
         Ev.setVisible "primarycontactid" true,
         Ev.setRequired "primarycontactid" "required",
         Ev.notifySet "NoPrimaryContact", Ev.syncPanel]) ∧
    (∀ (lk : Lookup) (acc : AccountRecord) (cid : String),
      env.customer = some lk → lk.entityType = "account" →
      env.retrieveAccount (stripBraces lk.id) = Except.ok acc →
      acc.primaryContactId = some cid → cid ≠ "" →
      env.retrieveContact cid = Except.error () →
      (handleCustomerField env s).2 =
        [Ev.fetch "account" (stripBraces lk.id),
         Ev.setVisible "primarycontactid" true,
         Ev.setRequired "primarycontactid" "required",
         Ev.fetch "contact" cid,
         Ev.notifySet "ContactError", Ev.syncPanel]) ∧
    (∀ (lk : Lookup) (acc : AccountRecord) (cid : String) (con : ContactRecord),
      env.customer = some lk → lk.entityType = "account" →
      env.retrieveAccount (stripBraces lk.id) = Except.ok acc →
      acc.primaryContactId = some cid → cid ≠ "" →
      env.retrieveContact cid = Except.ok con →
      (handleCustomerField env s).2 =
        [Ev.fetch "account" (stripBraces lk.id),
         Ev.setVisible "primarycontactid" true,
         Ev.setRequired "primarycontactid" "required",
         Ev.fetch "contact" cid, Ev.syncPanel,
         Ev.setValue "primarycontactid" (some (Lookup.mk cid con.fullname "contact"))]) ∧
    (∀ lk : Lookup, env.customer = some lk → lk.entityType = "contact" →
      Ev.syncPanel ∉ (handleCustomerField env s).2) := by
  refine ⟨?_, ?_, ?_, ?_, ?_, ?_⟩
  · intro hc
    simp [handleCustomerField, hc, handleNoCustomerSelected, setFieldVisibility,
      resetContactField, hattr]
  · intro lk hc hA hacct
    simp [handleCustomerField, hc, handleCustomerType, hA, handleAccountCustomer,
      hacct, handleAccountError, setFieldVisibility, setFormNotification]
  · intro lk acc hc hA hacct hlink
    simp [handleCustomerField, hc, handleCustomerType, hA, handleAccountCustomer,
      hacct, hlink, handleNoPrimaryContact, ensureContactFieldVisibility,
      setContactFieldRequirement, setFieldVisibility, setFormNotification,
      hctrl, hattr]
  · intro lk acc cid hc hA hacct hsome hcid hcon
    simp [handleCustomerField, hc, handleCustomerType, hA, handleAccountCustomer,
      hacct, hsome, jsTruthy, hcid, retrieveContactDetails, hcon,
      ensureContactFieldVisibility, setContactFieldRequirement, setFieldVisibility,
      setFormNotification, hctrl, hattr]
  · intro lk acc cid con hc hA hacct hsome hcid hcon
    simp [handleCustomerField, hc, handleCustomerType, hA, handleAccountCustomer,
      hacct, hsome, jsTruthy, hcid, retrieveContactDetails, hcon,
      ensureContactFieldVisibility, setContactFieldRequirement, setFieldVisibility,
      setFormNotification, hctrl, hattr]
  · intro lk hc hC
    have hA : (lk.entityType == "account") = false := by
      rw [hC]
      decide
    simp [handleCustomerField, hc, handleCustomerType, hA, hC, handleContactCustomer,
      setContactFieldRequirement, hctrl, hattr]

/-- C2 amended witness: the concrete no-linked-contact run discharges the
hypotheses; the branch equations then hold at that run. -/
theorem sync_position_amended_witness :
    (envOrgNoLink.customer = none →
      (handleCustomerField envOrgNoLink sampleState).2 =
        [Ev.syncPanel, Ev.setValue "primarycontactid" none]) ∧
    (∀ lk : Lookup, envOrgNoLink.customer = some lk → lk.entityType = "account" →
      envOrgNoLink.retrieveAccount (stripBraces lk.id) = Except.error () →
      (handleCustomerField envOrgNoLink sampleState).2 =
        [Ev.fetch "account" (stripBraces lk.id),
         Ev.notifySet "AccountError", Ev.syncPanel]) ∧
    (∀ (lk : Lookup) (acc : AccountRecord),
      envOrgNoLink.customer = some lk → lk.entityType = "account" →
      envOrgNoLink.retrieveAccount (stripBraces lk.id) = Except.ok acc →
      jsTruthy acc.primaryContactId = false →
      (handleCustomerField envOrgNoLink sampleState).2 =
        [Ev.fetch "account" (stripBraces lk.id),
         Ev.setVisible "primarycontactid" true,
         Ev.setRequired "primarycontactid" "required",
         Ev.notifySet "NoPrimaryContact", Ev.syncPanel]) ∧
    (∀ (lk : Lookup) (acc : AccountRecord) (cid : String),
      envOrgNoLink.customer = some lk → lk.entityType = "account" →
      envOrgNoLink.retrieveAccount (stripBraces lk.id) = Except.ok acc →
      acc.primaryContactId = some cid → cid ≠ "" →
      envOrgNoLink.retrieveContact cid = Except.error () →
      (handleCustomerField envOrgNoLink sampleState).2 =
        [Ev.fetch "account" (stripBraces lk.id),
         Ev.setVisible "primarycontactid" true,
         Ev.setRequired "primarycontactid" "required",
         Ev.fetch "contact" cid,
         Ev.notifySet "ContactError", Ev.syncPanel]) ∧
    (∀ (lk : Lookup) (acc : AccountRecord) (cid : String) (con : ContactRecord),
      envOrgNoLink.customer = some lk → lk.entityType = "account" →
      envOrgNoLink.retrieveAccount (stripBraces lk.id) = Except.ok acc →
      acc.primaryContactId = some cid → cid ≠ "" →
      envOrgNoLink.retrieveContact cid = Except.ok con →
      (handleCustomerField envOrgNoLink sampleState).2 =
        [Ev.fetch "account" (stripBraces lk.id),
         Ev.setVisible "primarycontactid" true,
         Ev.setRequired "primarycontactid" "required",
         Ev.fetch "contact" cid, Ev.syncPanel,
         Ev.setValue "primarycontactid" (some (Lookup.mk cid con.fullname "contact"))]) ∧
    (∀ lk : Lookup, envOrgNoLink.customer = some lk → lk.entityType = "contact" →
      Ev.syncPanel ∉ (handleCustomerField envOrgNoLink sampleState).2) :=
  sync_position_amended envOrgNoLink sampleState rfl rfl

/-- A concrete creation target: an incident whose customerid references C1. -/
def incidentWithCustomer : CasePlugin.Entity :=
  CasePlugin.Entity.mk "incident" [("customerid", CasePlugin.AttrVal.ref "C1")]

/-- A query oracle reporting one active case for customer C1 and none for
anyone else. -/
def oneActiveCaseForC1 : ActiveCasesQuery → Nat :=
  fun q => if q.customerId == "C1" then 1 else 0

/-- C7: for every creation whose target is an "incident", the plugin throws
the active-case domain error exactly when the active-cases query for the
target's (valid) customer id returns at least one row, throws the
customer-required domain error exactly when the customerid attribute is
missing or not an entity reference, and the two domain errors are distinct. -/
theorem admission_rule_errors
    (rowCount : ActiveCasesQuery → Nat) (e : CasePlugin.Entity)
    (hname : e.logicalName = "incident") :
    (executePlugin rowCount (some e) = Except.error activeCaseMsg ↔
      ∃ cid, validCustomerId e = some cid ∧ 1 ≤ rowCount (createActiveCasesQuery cid)) ∧
    (executePlugin rowCount (some e) = Except.error customerRequiredMsg ↔
      validCustomerId e = none) ∧
    activeCaseMsg ≠ customerRequiredMsg := by
  refine ⟨?_, ?_, by decide⟩ <;>
    rcases hv : validCustomerId e with _ | cid
  · simp [executePlugin, hname, hv, activeCaseMsg, customerRequiredMsg]
  · by_cases hq : hasActiveCases rowCount cid = true
    · have h1 := hq
      rw [hasActiveCases, decide_eq_true_eq] at h1
      simp [executePlugin, hname, hv, hq]
      omega
    · simp only [Bool.not_eq_true] at hq
      have h1 := hq
      rw [hasActiveCases, decide_eq_false_iff_not] at h1
      simp [executePlugin, hname, hv, hq]
      omega
  · simp [executePlugin, hname, hv]
  · by_cases hq : hasActiveCases rowCount cid = true
    · simp [executePlugin, hname, hv, hq, activeCaseMsg, customerRequiredMsg]
    · simp only [Bool.not_eq_true] at hq
      simp [executePlugin, hname, hv, hq]

/-- C7 witness: the concrete incident target whose customer has one active
case. -/
theorem admission_rule_errors_witness :
    (executePlugin oneActiveCaseForC1 (some incidentWithCustomer) = Except.error activeCaseMsg ↔
      ∃ cid, validCustomerId incidentWithCustomer = some cid ∧
        1 ≤ oneActiveCaseForC1 (createActiveCasesQuery cid)) ∧
    (executePlugin oneActiveCaseForC1 (some incidentWithCustomer) = Except.error customerRequiredMsg ↔
      validCustomerId incidentWithCustomer = none) ∧
    activeCaseMsg ≠ customerRequiredMsg :=
  admission_rule_errors oneActiveCaseForC1 incidentWithCustomer rfl

/-- The poll's trace from any start tick: with the loaded predicate false for
the N ticks before the flip and true at the flip, and enough fuel to reach
it, the poll emits N idle ticks, then cancels the timer and runs the read
pass, and stops. -/
lemma waitForQuickViewLoad_spec (isLoaded : Nat → Bool) :
    ∀ (N t fuel : Nat), N < fuel →
      (∀ i, i < N → isLoaded (t + i) = false) → isLoaded (t + N) = true →
      waitForQuickViewLoad isLoaded t fuel
        = List.replicate N PollEv.tick ++ [PollEv.cancelTimer, PollEv.readPass] := by
  intro N
  induction N with
  | zero =>
    intro t fuel hfuel h0 hN
    obtain ⟨f, rfl⟩ : ∃ f, fuel = f + 1 := ⟨fuel - 1, by omega⟩
    simp only [Nat.add_zero] at hN
    simp [waitForQuickViewLoad, hN]
  | succ n ih =>
    intro t fuel hfuel h0 hN
    obtain ⟨f, rfl⟩ : ∃ f, fuel = f + 1 := ⟨fuel - 1, by omega⟩
    have ht : isLoaded t = false := by
      have := h0 0 (Nat.succ_pos n)
      simpa using this
    have hstep : waitForQuickViewLoad isLoaded t (f + 1)
        = PollEv.tick :: waitForQuickViewLoad isLoaded (t + 1) f := by
      simp [waitForQuickViewLoad, ht]
    rw [hstep, ih (t + 1) f (by omega) ?_ ?_]
    · simp [List.replicate_succ]
    · intro i hi
      have h := h0 (i + 1) (by omega)
      have harith : t + (i + 1) = t + 1 + i := by omega
      rw [harith] at h
      exact h
    · have harith : t + (n + 1) = t + 1 + n := by omega
      rw [harith] at hN
      exact hN

/-- C8: for a panel whose loaded predicate is false for the first N poll
ticks and true at tick N, the poll (observed for any number of ticks past
the flip) performs exactly one read pass, strictly after the N idle ticks,
and cancels the interval timer exactly once. -/
theorem poll_single_read_and_cancel
    (isLoaded : Nat → Bool) (N fuel : Nat) (hfuel : N < fuel)
    (h0 : ∀ i, i < N → isLoaded i = false) (hN : isLoaded N = true) :
    waitForQuickViewLoad isLoaded 0 fuel
      = List.replicate N PollEv.tick ++ [PollEv.cancelTimer, PollEv.readPass] ∧
    (waitForQuickViewLoad isLoaded 0 fuel).count PollEv.readPass = 1 ∧
    (waitForQuickViewLoad isLoaded 0 fuel).count PollEv.cancelTimer = 1 := by
  have h0' : ∀ i, i < N → isLoaded (0 + i) = false := by
    intro i hi
    rw [Nat.zero_add]
    exact h0 i hi
  have hN' : isLoaded (0 + N) = true := by
    rw [Nat.zero_add]
    exact hN
  have heq := waitForQuickViewLoad_spec isLoaded N 0 fuel hfuel h0' hN'
  refine ⟨heq, ?_, ?_⟩ <;>
    simp [heq, List.count_append, List.count_replicate, List.count_cons]

/-- C8 witness: a panel that loads at tick 2, observed for five ticks. -/
theorem poll_single_read_and_cancel_witness :
    waitForQuickViewLoad (fun t => decide (2 ≤ t)) 0 5
      = List.replicate 2 PollEv.tick ++ [PollEv.cancelTimer, PollEv.readPass] ∧
    (waitForQuickViewLoad (fun t => decide (2 ≤ t)) 0 5).count PollEv.readPass = 1 ∧
    (waitForQuickViewLoad (fun t => decide (2 ≤ t)) 0 5).count PollEv.cancelTimer = 1 :=
  poll_single_read_and_cancel (fun t => decide (2 ≤ t)) 2 5 (by decide)
    (by decide) (by decide)

/-- C9: in the read pass after the panel loads, a field's value is absent
exactly when the field is inaccessible, null, or whitespace-only after
trimming; each accessible child control's visibility is set to the presence
of its value; and the panel is hidden with the no-contact-details banner set
precisely when both values are absent, otherwise the panel is shown and that
banner is cleared. -/
theorem quick_view_read_pass (qv : QuickView) (ns : List Notif) :
    (∀ f : QVField, getFieldValue f = none ↔
      (f.controlPresent = false ∨ f.attrReadable = false ∨ f.rawValue = none ∨
        ∃ str, f.rawValue = some str ∧ jsTrim str = "")) ∧
    (qv.email.controlPresent = true →
      (quickViewCallback qv ns).1.email.visible = (getFieldValue qv.email).isSome) ∧
    (qv.phone.controlPresent = true →
      (quickViewCallback qv ns).1.phone.visible = (getFieldValue qv.phone).isSome) ∧
    ((getFieldValue qv.email = none ∧ getFieldValue qv.phone = none) →
      (quickViewCallback qv ns).1.visible = false ∧
      notifListActive (quickViewCallback qv ns).2 "NoContactDetails" = true) ∧
    (¬(getFieldValue qv.email = none ∧ getFieldValue qv.phone = none) →
      (quickViewCallback qv ns).1.visible = true ∧
      notifListActive (quickViewCallback qv ns).2 "NoContactDetails" = false) := by
  refine ⟨?_, ?_, ?_, ?_, ?_⟩
  · intro f
    obtain ⟨cp, ar, rv, vis⟩ := f
    cases cp <;> cases ar <;> rcases rv with _ | str <;>
      simp [getFieldValue]
  · intro h
    simp [quickViewCallback, updateFieldVisibility, h]
  · intro h
    simp [quickViewCallback, updateFieldVisibility, h]
  · intro h
    obtain ⟨he, hp⟩ := h
    simp [quickViewCallback, he, hp, updateFormNotification, notifListActive_upsert]
  · intro h
    have hor : (getFieldValue qv.email).isNone = false ∨ (getFieldValue qv.phone).isNone = false := by
      rcases hE : getFieldValue qv.email with _ | v
      · rcases hP : getFieldValue qv.phone with _ | w
        · exact absurd ⟨hE, hP⟩ h
        · right; simp [hP]
      · left; simp [hE]
    rcases hor with hE | hP
    · simp [quickViewCallback, hE, updateFormNotification, notifListActive_clear]
    · simp [quickViewCallback, hP, updateFormNotification, notifListActive_clear]
